import Mathlib

/-
  Verification of the clearing-house numeric core: spot position ledger,
  AMM JIT sizing, and margin-weight validation, as a shallow embedding of
  the Rust sources (controller/spot_position.rs, math/amm_jit.rs,
  validation/margin.rs).  Machine integers are modelled as Nat/Int with
  explicit width checks; fallible checked arithmetic returns a result type
  distinguishing arithmetic from validation errors.  Stateful functions
  taking &mut references are modelled as returning the final state together
  with an optional error, so that mutations retained across an early
  error return are visible in the model.
-/

namespace ClearingHouse

set_option maxRecDepth 16384

/-- Error families of the program: arithmetic (checked overflow, underflow,
lossy cast, division by zero) and validation (named rule violations). -/
inductive ErrKind where
  | math
  | validation
  deriving DecidableEq, Repr

/-- Result type mirroring ClearingHouseResult. -/
abbrev CResult (α : Type) := Except ErrKind α

/-- Checked u64 addition: errors on overflow past 2^64. -/
def checked_add_u64 (a b : Nat) : CResult Nat :=
  if a + b < 2 ^ 64 then .ok (a + b) else .error .math

/-- Checked u128 addition: errors on overflow past 2^128. -/
def checked_add_u128 (a b : Nat) : CResult Nat :=
  if a + b < 2 ^ 128 then .ok (a + b) else .error .math

/-- Checked unsigned subtraction: errors on underflow. -/
def checked_sub (a b : Nat) : CResult Nat :=
  if b ≤ a then .ok (a - b) else .error .math

/-- Checked u128 multiplication: errors on overflow past 2^128. -/
def checked_mul_u128 (a b : Nat) : CResult Nat :=
  if a * b < 2 ^ 128 then .ok (a * b) else .error .math

/-- Checked division: errors on a zero divisor, truncates otherwise. -/
def checked_div (a b : Nat) : CResult Nat :=
  if b = 0 then .error .math else .ok (a / b)

/-- Checked remainder: errors on a zero divisor. -/
def checked_rem (a b : Nat) : CResult Nat :=
  if b = 0 then .error .math else .ok (a % b)

/-- Modelled from the spec: cast_to_u128 on a signed value (casting.rs is
not under src/); a signed-to-unsigned cast fails on a negative input. -/
def cast_to_u128 (x : Int) : CResult Nat :=
  if 0 ≤ x then .ok x.toNat else .error .math

/-- Modelled from the spec: checked narrowing cast u128 -> u64 (casting.rs
is not under src/); fails when the value does not fit in 64 bits. -/
def cast_u128_to_u64 (a : Nat) : CResult Nat :=
  if a < 2 ^ 64 then .ok a else .error .math

/-- Modelled from the spec: checked cast of an unsigned token amount into
the signed 64-bit type of cumulative_deposits; fails when it does not fit. -/
def cast_u128_to_i64 (a : Nat) : CResult Int :=
  if a < 2 ^ 63 then .ok (a : Int) else .error .math

/-- Modelled from the spec: checked cast u128 -> i128 used when signing
reserve amounts; fails when the value does not fit in 127 bits. -/
def cast_u128_to_i128 (a : Nat) : CResult Int :=
  if a < 2 ^ 127 then .ok (a : Int) else .error .math

/-- Checked signed 64-bit addition (the checked_increment macro). -/
def checked_add_i64 (a b : Int) : CResult Int :=
  if -(2 ^ 63) ≤ a + b ∧ a + b < 2 ^ 63 then .ok (a + b) else .error .math

/-- Checked signed 64-bit subtraction (the checked_decrement macro). -/
def checked_sub_i64 (a b : Int) : CResult Int :=
  if -(2 ^ 63) ≤ a - b ∧ a - b < 2 ^ 63 then .ok (a - b) else .error .math

/-- Checked signed 128-bit subtraction. -/
def checked_sub_i128 (a b : Int) : CResult Int :=
  if -(2 ^ 127) ≤ a - b ∧ a - b < 2 ^ 127 then .ok (a - b) else .error .math

/-- Order direction, {Long, Short}. -/
inductive PositionDirection where
  | Long
  | Short
  deriving DecidableEq, Repr

/-- Balance direction of a spot position, {Deposit, Borrow}. -/
inductive SpotBalanceType where
  | Deposit
  | Borrow
  deriving DecidableEq, Repr

/-- Modelled from the spec: fixed precision scale of scaled spot balances
(constants.rs is not under src/). -/
def SPOT_BALANCE_PRECISION : Nat := 10 ^ 9

/-- Modelled from the spec: the AMM reserve precision scale used by the
imbalance ratio (constants.rs is not under src/). -/
def AMM_RESERVE_PRECISION : Nat := 10 ^ 13

/-- Modelled from the spec: the full-weight constant for spot margin
weights (constants.rs is not under src/). -/
def SPOT_WEIGHT_PRECISION : Nat := 10 ^ 4

/-- Modelled from the spec: the precision ceiling for the imf factor
(constants.rs is not under src/). -/
def SPOT_IMF_PRECISION : Nat := 10 ^ 6

/-- Modelled from the spec: a SpotMarket's pooled totals, scaled by a fixed
precision constant, unsigned (state/spot_market.rs is not under src/). -/
structure SpotMarket where
  deposit_balance : Nat
  borrow_balance : Nat
  deriving DecidableEq, Repr

/-- Modelled from the spec: a per-(account, market) spot position record
(state/user.rs is not under src/): balance type and scaled magnitude,
unsigned open_bids / open_asks exposure in token-amount units, and a
signed cumulative_deposits running total in token units. -/
structure SpotPosition where
  market_index : Nat
  balance_type : SpotBalanceType
  balance : Nat
  open_bids : Nat
  open_asks : Nat
  cumulative_deposits : Int
  deriving DecidableEq, Repr

/-- Modelled from the spec: AMM fields read by the JIT sizer
(state/market.rs is not under src/): signed net inventory, intensity
throttle 0-100, virtual-curve reserve bounds, and order step size. -/
structure AMM where
  net_base_asset_amount : Int
  amm_jit_intensity : Nat
  base_asset_reserve : Nat
  min_base_asset_reserve : Nat
  max_base_asset_reserve : Nat
  order_step_size : Nat
  deriving DecidableEq, Repr

/-- Modelled from the spec: a derivative market wrapping its AMM. -/
structure PerpMarket where
  amm : AMM
  deriving DecidableEq, Repr

/-- Model of increase_spot_open_bids_and_asks (controller/spot_position.rs lines
14-35): Long adds the unfilled amount to open_bids with a checked add;
Short subtracts it from open_asks with a checked sub.  A single checked
operation feeds a single field assignment, so failure leaves the position
unmodified and the operation is modelled as all-or-nothing. -/
def increase_spot_open_bids_and_asks (p : SpotPosition) (d : PositionDirection)
    (base_asset_amount_unfilled : Nat) : CResult SpotPosition :=
  match d with
  | .Long => do
      let ob ← checked_add_u64 p.open_bids base_asset_amount_unfilled
      .ok { p with open_bids := ob }
  | .Short => do
      let oa ← checked_sub p.open_asks base_asset_amount_unfilled
      .ok { p with open_asks := oa }

/-- Model of decrease_spot_open_bids_and_asks (controller/spot_position.rs lines
37-58): Long subtracts from open_bids, Short adds to open_asks. -/
def decrease_spot_open_bids_and_asks (p : SpotPosition) (d : PositionDirection)
    (base_asset_amount_unfilled : Nat) : CResult SpotPosition :=
  match d with
  | .Long => do
      let ob ← checked_sub p.open_bids base_asset_amount_unfilled
      .ok { p with open_bids := ob }
  | .Short => do
      let oa ← checked_add_u64 p.open_asks base_asset_amount_unfilled
      .ok { p with open_asks := oa }

/-- Modelled from the spec: update_spot_balances (controller/spot_balance.rs
is not under src/), the 4.2 balance-update collaborator.  It scales the
token amount by the balance precision and adjusts the market's pooled
totals and the position's scaled magnitude/type in tandem: growing the
position when the direction matches its balance type, shrinking it when it
opposes and the delta fits, and flipping the balance type when the delta
crosses zero, all with checked arithmetic.  The rounding bias flag has no
effect because the conversion to balance units is exact at this scale.
Errors leave both records unchanged (the operation is treated as atomic,
per its contract "mutates market and position consistently"). -/
def update_spot_balances (token_amount : Nat) (dir : SpotBalanceType)
    (m : SpotMarket) (p : SpotPosition) (_force_round_up : Bool) :
    CResult (SpotMarket × SpotPosition) := do
  let scaled ← checked_mul_u128 token_amount SPOT_BALANCE_PRECISION
  if p.balance_type = dir then do
    let pb ← checked_add_u128 p.balance scaled
    match dir with
    | .Deposit => do
        let db ← checked_add_u128 m.deposit_balance scaled
        .ok ({ m with deposit_balance := db }, { p with balance := pb })
    | .Borrow => do
        let bb ← checked_add_u128 m.borrow_balance scaled
        .ok ({ m with borrow_balance := bb }, { p with balance := pb })
  else if scaled ≤ p.balance then
    match p.balance_type with
    | .Deposit => do
        let db ← checked_sub m.deposit_balance scaled
        .ok ({ m with deposit_balance := db }, { p with balance := p.balance - scaled })
    | .Borrow => do
        let bb ← checked_sub m.borrow_balance scaled
        .ok ({ m with borrow_balance := bb }, { p with balance := p.balance - scaled })
  else
    match p.balance_type, dir with
    | .Deposit, .Borrow => do
        let db ← checked_sub m.deposit_balance p.balance
        let bb ← checked_add_u128 m.borrow_balance (scaled - p.balance)
        .ok ({ m with deposit_balance := db, borrow_balance := bb },
             { p with balance := scaled - p.balance, balance_type := .Borrow })
    | .Borrow, .Deposit => do
        let bb ← checked_sub m.borrow_balance p.balance
        let db ← checked_add_u128 m.deposit_balance (scaled - p.balance)
        .ok ({ m with deposit_balance := db, borrow_balance := bb },
             { p with balance := scaled - p.balance, balance_type := .Deposit })
    | _, _ => .error .math

/-- Model of the cumulative_deposits step of update_spot_position_balance
(controller/spot_position.rs lines 75-82): cast the token amount into the
signed field type, then a checked increment for a Deposit or a checked
decrement for a Borrow. -/
def cumulative_deposits_delta (dir : SpotBalanceType) (token_amount : Nat)
    (cd : Int) : CResult Int := do
  let t ← cast_u128_to_i64 token_amount
  match dir with
  | .Deposit => checked_add_i64 cd t
  | .Borrow => checked_sub_i64 cd t

/-- Model of update_spot_position_balance (controller/spot_position.rs lines 60-85):
first delegates to update_spot_balances, then updates cumulative_deposits.
The Rust function mutates the market and position through &mut references
and early-returns on error, so state already written before the failing
step is retained; the model therefore returns the final state of both
records together with an optional error. -/
def update_spot_position_balance (token_amount : Nat) (dir : SpotBalanceType)
    (m : SpotMarket) (p : SpotPosition) (force_round_up : Bool) :
    Option ErrKind × SpotMarket × SpotPosition :=
  match update_spot_balances token_amount dir m p force_round_up with
  | .error e => (some e, m, p)
  | .ok (m', p') =>
    match cumulative_deposits_delta dir token_amount p'.cumulative_deposits with
    | .error e => (some e, m', p')
    | .ok cd => (none, m', { p' with cumulative_deposits := cd })

/-- Model of transfer_spot_position_deposit (controller/spot_position.rs lines
87-116): validates that both positions share a market index (a validation
error on mismatch, before any state is touched), then performs a Borrow
update on the from-position followed by a Deposit update on the
to-position, both with force_round_up = false, propagating errors with
whatever state has been written so far. -/
def transfer_spot_position_deposit (token_amount : Nat) (m : SpotMarket)
    (fp tp : SpotPosition) :
    Option ErrKind × SpotMarket × SpotPosition × SpotPosition :=
  if fp.market_index = tp.market_index then
    match update_spot_position_balance token_amount .Borrow m fp false with
    | (some e, m', fp') => (some e, m', fp', tp)
    | (none, m', fp') =>
      match update_spot_position_balance token_amount .Deposit m' tp false with
      | (e, m'', tp') => (e, m'', fp', tp')
  else (some .validation, m, fp, tp)

/-- Modelled from the spec: calculate_market_open_bids_asks (math/amm.rs is
not under src/) computes the AMM's maximum open bid and ask capacities
from its curve bounds; the bid capacity is the signed distance from the
current reserve down to the minimum reserve and the ask capacity the
signed distance up to the maximum reserve (matching the worked example in
the amm_jit.rs comment and the classifications its tests expect). -/
def calculate_market_open_bids_asks (amm : AMM) : CResult (Int × Int) := do
  let base ← cast_u128_to_i128 amm.base_asset_reserve
  let mn ← cast_u128_to_i128 amm.min_base_asset_reserve
  let mx ← cast_u128_to_i128 amm.max_base_asset_reserve
  let max_bids ← checked_sub_i128 base mn
  let max_asks ← checked_sub_i128 base mx
  .ok (max_bids, max_asks)

/-- Modelled from the spec: standardize_base_asset_amount (math/orders.rs is
not under src/) rounds an amount down to the nearest multiple of the step
size using a checked remainder (a zero step is an arithmetic error). -/
def standardize_base_asset_amount (amount step_size : Nat) : CResult Nat := do
  let r ← checked_rem amount step_size
  checked_sub amount r

/-- The imbalance measure of calculate_jit_base_asset_amount (math/amm_jit.rs
lines 52-61): absolute open bid and ask capacities, larger over smaller,
scaled by AMM_RESERVE_PRECISION with checked arithmetic. -/
def amm_imbalance_ratio (amm : AMM) : CResult Nat := do
  let (max_bids, max_asks) ← calculate_market_open_bids_asks amm
  let numerator := max max_bids.natAbs max_asks.natAbs
  let denominator := min max_bids.natAbs max_asks.natAbs
  let t ← checked_mul_u128 numerator AMM_RESERVE_PRECISION
  checked_div t denominator

/-- Model of calculate_clampped_jit_base_asset_amount (math/amm_jit.rs lines 96-119):
widen to u128, scale by amm_jit_intensity over 100 with checked multiply
and divide, narrow back to u64, and cap at the absolute net inventory
(itself narrowed to u64) so the JIT fill cannot flip the AMM's position. -/
def calculate_clampped_jit_base_asset_amount (market : PerpMarket)
    (jit_base_asset_amount : Nat) : CResult Nat := do
  let t ← checked_mul_u128 jit_base_asset_amount market.amm.amm_jit_intensity
  let t ← checked_div t 100
  let t ← cast_u128_to_u64 t
  let max_amm ← cast_u128_to_u64 market.amm.net_base_asset_amount.natAbs
  .ok (min t max_amm)

/-- The wash-trade cap of calculate_jit_base_asset_amount (math/amm_jit.rs
lines 19-37): start from half the maker amount; with no oracle price the
cap is zeroed; with one, a taker Long below oracle or a taker Short above
oracle quarters the cap. -/
def jit_max_amount (maker_base_asset_amount auction_price : Nat)
    (valid_oracle_price : Option Int) (taker_direction : PositionDirection) :
    CResult Nat := do
  let max_jit ← checked_div maker_base_asset_amount 2
  match valid_oracle_price with
  | some op => do
      let oracle_price ← cast_to_u128 op
      if taker_direction = .Long ∧ auction_price < oracle_price then
        checked_div max_jit 4
      else if taker_direction = .Short ∧ oracle_price < auction_price then
        checked_div max_jit 4
      else
        .ok max_jit
  | none => .ok 0

/-- The sizing tail of calculate_jit_base_asset_amount (math/amm_jit.rs
lines 39-91): short-circuit on a zero cap, classify the imbalance, take
the full maker amount when imbalanced or a quarter otherwise, clamp by
intensity and inventory, cap by the wash-trade-adjusted maximum, and
standardize to the order step size. -/
def jit_amount_after_cap (market : PerpMarket) (maker_base_asset_amount : Nat)
    (max_jit_amount : Nat) : CResult Nat :=
  if max_jit_amount = 0 then .ok 0
  else
    amm_imbalance_ratio market.amm >>= fun ratio =>
    checked_mul_u128 3 AMM_RESERVE_PRECISION >>= fun imbalanced_bound =>
    (if imbalanced_bound ≤ ratio then .ok maker_base_asset_amount
      else checked_div maker_base_asset_amount 4) >>= fun jit0 =>
    if jit0 = 0 then .ok 0
    else
      calculate_clampped_jit_base_asset_amount market jit0 >>= fun jit1 =>
      standardize_base_asset_amount (min jit1 max_jit_amount)
        market.amm.order_step_size

/-- Model of calculate_jit_base_asset_amount (math/amm_jit.rs lines 12-92), assembled
from the wash-trade cap and the sizing tail. -/
def calculate_jit_base_asset_amount (market : PerpMarket)
    (maker_base_asset_amount auction_price : Nat)
    (valid_oracle_price : Option Int) (taker_direction : PositionDirection) :
    CResult Nat := do
  let max_jit ← jit_max_amount maker_base_asset_amount auction_price
    valid_oracle_price taker_direction
  jit_amount_after_cap market maker_base_asset_amount max_jit

/-- The wash-trade flag of math/amm_jit.rs lines 30-34: a taker Long with
the auction price below oracle, or a taker Short with the auction price
above oracle. -/
def wash_flagged (dir : PositionDirection) (auction_price oracle_price : Nat) :
    Prop :=
  (dir = .Long ∧ auction_price < oracle_price) ∨
    (dir = .Short ∧ oracle_price < auction_price)

instance (dir : PositionDirection) (a o : Nat) : Decidable (wash_flagged dir a o) := by
  unfold wash_flagged
  infer_instance

/-- A single fail-fast rule of the validate macro (ValidationError family). -/
def validate_rule (cond : Prop) [Decidable cond] : CResult Unit :=
  if cond then .ok () else .error .validation

/-- Model of validate_margin_weights (validation/margin.rs lines 43-121): for spot
market index 0 all four weights must equal SPOT_WEIGHT_PRECISION exactly;
for any other index the asset weights must sit strictly below it in the
stated order and the liability weights strictly above it; in all cases the
imf factor must be strictly below SPOT_IMF_PRECISION.  Rules are checked
fail-fast, each failure a validation error. -/
def validate_margin_weights (spot_market_index : Nat)
    (initial_asset_weight maintenance_asset_weight : Nat)
    (initial_liability_weight maintenance_liability_weight : Nat)
    (imf_factor : Nat) : CResult Unit := do
  if spot_market_index = 0 then
    validate_rule (initial_asset_weight = SPOT_WEIGHT_PRECISION)
    validate_rule (maintenance_asset_weight = SPOT_WEIGHT_PRECISION)
    validate_rule (initial_liability_weight = SPOT_WEIGHT_PRECISION)
    validate_rule (maintenance_liability_weight = SPOT_WEIGHT_PRECISION)
  else
    validate_rule (initial_asset_weight < SPOT_WEIGHT_PRECISION)
    validate_rule (initial_asset_weight ≤ maintenance_asset_weight ∧
      0 < maintenance_asset_weight ∧
      maintenance_asset_weight < SPOT_WEIGHT_PRECISION)
    validate_rule (SPOT_WEIGHT_PRECISION < initial_liability_weight)
    validate_rule (maintenance_liability_weight ≤ initial_liability_weight ∧
      SPOT_WEIGHT_PRECISION < maintenance_liability_weight)
  validate_rule (imf_factor < SPOT_IMF_PRECISION)

/-! Helper lemmas characterizing the checked primitives and the Except
monad, shared by the claim proofs below. -/

lemma ok_bind {α β : Type} (a : α) (f : α → CResult β) :
    (Except.ok a >>= f) = f a := rfl

lemma error_bind {α β : Type} (e : ErrKind) (f : α → CResult β) :
    ((Except.error e : CResult α) >>= f) = .error e := rfl

lemma bind_ok_iff {α β : Type} {x : CResult α} {f : α → CResult β} {b : β} :
    x >>= f = .ok b ↔ ∃ a, x = .ok a ∧ f a = .ok b := by
  cases x with
  | error e => simp [error_bind]
  | ok a => simp [ok_bind]

lemma checked_add_u64_ok {a b r : Nat} :
    checked_add_u64 a b = .ok r ↔ a + b < 2 ^ 64 ∧ r = a + b := by
  unfold checked_add_u64
  split_ifs with h <;> simp [h, eq_comm] <;> omega

lemma checked_add_u128_ok {a b r : Nat} :
    checked_add_u128 a b = .ok r ↔ a + b < 2 ^ 128 ∧ r = a + b := by
  unfold checked_add_u128
  split_ifs with h <;> simp [h, eq_comm] <;> omega

lemma checked_sub_ok {a b r : Nat} :
    checked_sub a b = .ok r ↔ b ≤ a ∧ r = a - b := by
  unfold checked_sub
  split_ifs with h <;> simp [h, eq_comm]

lemma checked_mul_u128_ok {a b r : Nat} :
    checked_mul_u128 a b = .ok r ↔ a * b < 2 ^ 128 ∧ r = a * b := by
  unfold checked_mul_u128
  split_ifs with h <;> simp [h, eq_comm] <;> omega

lemma checked_div_ok {a b r : Nat} :
    checked_div a b = .ok r ↔ b ≠ 0 ∧ r = a / b := by
  unfold checked_div
  split_ifs with h <;> simp [h, eq_comm]

lemma checked_rem_ok {a b r : Nat} :
    checked_rem a b = .ok r ↔ b ≠ 0 ∧ r = a % b := by
  unfold checked_rem
  split_ifs with h <;> simp [h, eq_comm]

lemma cast_to_u128_ok {x : Int} {r : Nat} :
    cast_to_u128 x = .ok r ↔ 0 ≤ x ∧ r = x.toNat := by
  unfold cast_to_u128
  split_ifs with h <;> simp [h, eq_comm]

lemma cast_u128_to_u64_ok {a r : Nat} :
    cast_u128_to_u64 a = .ok r ↔ a < 2 ^ 64 ∧ r = a := by
  unfold cast_u128_to_u64
  split_ifs with h <;> simp [h, eq_comm] <;> omega

/-- Rounding down to a step multiple, characterized: the step is nonzero
and the result is the amount less its remainder. -/
lemma standardize_ok_eq {x s r : Nat}
    (h : standardize_base_asset_amount x s = .ok r) : s ≠ 0 ∧ r = x - x % s := by
  unfold standardize_base_asset_amount at h
  rcases bind_ok_iff.mp h with ⟨m, hm, hsub⟩
  rcases checked_rem_ok.mp hm with ⟨hs, rfl⟩
  rcases checked_sub_ok.mp hsub with ⟨-, rfl⟩
  exact ⟨hs, rfl⟩

/-- Standardization is monotone for a fixed step size. -/
lemma standardize_mono {x y s rx ry : Nat} (hxy : x ≤ y)
    (hx : standardize_base_asset_amount x s = .ok rx)
    (hy : standardize_base_asset_amount y s = .ok ry) : rx ≤ ry := by
  obtain ⟨hs, hrx⟩ := standardize_ok_eq hx
  obtain ⟨-, hry⟩ := standardize_ok_eq hy
  subst hrx hry
  have h1 : x - x % s = s * (x / s) := by
    have := Nat.div_add_mod x s
    omega
  have h2 : y - y % s = s * (y / s) := by
    have := Nat.div_add_mod y s
    omega
  rw [h1, h2]
  exact Nat.mul_le_mul_left s (Nat.div_le_div_right hxy)

/-- A successful intensity/inventory clamp equals the min of the scaled
amount and the absolute net inventory, both of which fit in 64 bits. -/
lemma clamp_ok_eq {market : PerpMarket} {a r : Nat}
    (h : calculate_clampped_jit_base_asset_amount market a = .ok r) :
    r = min (a * market.amm.amm_jit_intensity / 100)
        market.amm.net_base_asset_amount.natAbs ∧
    a * market.amm.amm_jit_intensity / 100 < 2 ^ 64 ∧
    market.amm.net_base_asset_amount.natAbs < 2 ^ 64 := by
  unfold calculate_clampped_jit_base_asset_amount at h
  rcases bind_ok_iff.mp h with ⟨t1, ht1, h⟩
  rcases checked_mul_u128_ok.mp ht1 with ⟨-, rfl⟩
  rcases bind_ok_iff.mp h with ⟨t2, ht2, h⟩
  rcases checked_div_ok.mp ht2 with ⟨-, rfl⟩
  rcases bind_ok_iff.mp h with ⟨t3, ht3, h⟩
  rcases cast_u128_to_u64_ok.mp ht3 with ⟨hb1, rfl⟩
  rcases bind_ok_iff.mp h with ⟨maxa, hmaxa, h⟩
  rcases cast_u128_to_u64_ok.mp hmaxa with ⟨hb2, rfl⟩
  simp only [Except.ok.injEq] at h
  exact ⟨h.symm, hb1, hb2⟩

/-- Claim C3: for every market, maker amount, auction price, and taker direction,
calculate_jit_base_asset_amount with no oracle price returns Ok(0); the
universal quantification over the market shows the imbalance, intensity,
and inventory logic is never evaluated, since it holds even for markets on
which that logic would fail. -/
theorem calculate_jit_base_asset_amount_no_oracle_zero
    (market : PerpMarket) (maker auction : Nat) (dir : PositionDirection) :
    calculate_jit_base_asset_amount market maker auction none dir = .ok 0 := by
  simp [calculate_jit_base_asset_amount, jit_max_amount, checked_div,
    jit_amount_after_cap, ok_bind]

/-- Claim C10: for every market, maker amount, auction price, and taker direction,
calculate_jit_base_asset_amount with a negative oracle price fails with an
arithmetic error: the signed-to-unsigned cast of the oracle price fails
before any sizing is computed. -/
theorem calculate_jit_base_asset_amount_negative_oracle_errors
    (market : PerpMarket) (maker auction : Nat) (p : Int)
    (dir : PositionDirection) (hp : p < 0) :
    calculate_jit_base_asset_amount market maker auction (some p) dir =
      .error .math := by
  simp [calculate_jit_base_asset_amount, jit_max_amount, checked_div,
    cast_to_u128, not_le.mpr hp, ok_bind, error_bind]

/-- Witness for C10 at oracle price -1. -/
theorem calculate_jit_base_asset_amount_negative_oracle_errors_witness :
    calculate_jit_base_asset_amount ⟨⟨100, 100, 75, 50, 100, 1⟩⟩ 100 200
      (some (-1)) .Long = .error .math :=
  calculate_jit_base_asset_amount_negative_oracle_errors _ _ _ _ _ (by decide)

/-- Claim C2: for every token amount, market, and pair of positions whose market
indices differ, transfer_spot_position_deposit returns a validation error
and performs no mutation: the returned market and both positions are the
inputs unchanged. -/
theorem transfer_spot_position_deposit_market_index_mismatch_no_mutation
    (token_amount : Nat) (m : SpotMarket) (fp tp : SpotPosition)
    (h : fp.market_index ≠ tp.market_index) :
    transfer_spot_position_deposit token_amount m fp tp =
      (some .validation, m, fp, tp) := by
  simp [transfer_spot_position_deposit, h]

/-- Witness for C2 at market indices 0 and 1. -/
theorem transfer_spot_position_deposit_market_index_mismatch_witness :
    transfer_spot_position_deposit 5 ⟨0, 0⟩ ⟨0, .Deposit, 0, 0, 0, 0⟩
      ⟨1, .Deposit, 0, 0, 0, 0⟩ =
      (some .validation, ⟨0, 0⟩, ⟨0, .Deposit, 0, 0, 0, 0⟩,
        ⟨1, .Deposit, 0, 0, 0, 0⟩) :=
  transfer_spot_position_deposit_market_index_mismatch_no_mutation 5 _ _ _
    (by decide)

/-- Claim C4: whenever increase_spot_open_bids_and_asks succeeds and the
subsequent decrease with the same direction and amount succeeds, the
original position is restored exactly. -/
theorem increase_then_decrease_spot_open_bids_and_asks_inverse
    (p p1 p2 : SpotPosition) (d : PositionDirection) (a : Nat)
    (h1 : increase_spot_open_bids_and_asks p d a = .ok p1)
    (h2 : decrease_spot_open_bids_and_asks p1 d a = .ok p2) : p2 = p := by
  cases d with
  | Long =>
    unfold increase_spot_open_bids_and_asks at h1
    rcases bind_ok_iff.mp h1 with ⟨ob, hob, hp1⟩
    rcases checked_add_u64_ok.mp hob with ⟨-, rfl⟩
    simp only [Except.ok.injEq] at hp1
    subst hp1
    unfold decrease_spot_open_bids_and_asks at h2
    rcases bind_ok_iff.mp h2 with ⟨ob', hob', hp2⟩
    rcases checked_sub_ok.mp hob' with ⟨-, rfl⟩
    simp only [Except.ok.injEq] at hp2
    subst hp2
    cases p
    simp
  | Short =>
    unfold increase_spot_open_bids_and_asks at h1
    rcases bind_ok_iff.mp h1 with ⟨oa, hoa, hp1⟩
    rcases checked_sub_ok.mp hoa with ⟨hle, rfl⟩
    simp only [Except.ok.injEq] at hp1
    subst hp1
    unfold decrease_spot_open_bids_and_asks at h2
    rcases bind_ok_iff.mp h2 with ⟨oa', hoa', hp2⟩
    rcases checked_add_u64_ok.mp hoa' with ⟨-, rfl⟩
    simp only [Except.ok.injEq] at hp2
    subst hp2
    have hoa : p.open_asks - a + a = p.open_asks := Nat.sub_add_cancel hle
    cases p
    simp_all

/-- Witness for C4: increase then decrease a Short exposure of 3 on a
position with 7 open asks restores the position. -/
theorem increase_then_decrease_spot_open_bids_and_asks_inverse_witness :
    increase_spot_open_bids_and_asks ⟨0, .Deposit, 0, 0, 7, 0⟩ .Short 3 =
      .ok ⟨0, .Deposit, 0, 0, 4, 0⟩ ∧
    decrease_spot_open_bids_and_asks ⟨0, .Deposit, 0, 0, 4, 0⟩ .Short 3 =
      .ok ⟨0, .Deposit, 0, 0, 7, 0⟩ ∧
    (⟨0, .Deposit, 0, 0, 7, 0⟩ : SpotPosition) = ⟨0, .Deposit, 0, 0, 7, 0⟩ :=
  ⟨by rfl, by rfl,
    increase_then_decrease_spot_open_bids_and_asks_inverse
      ⟨0, .Deposit, 0, 0, 7, 0⟩ ⟨0, .Deposit, 0, 0, 4, 0⟩
      ⟨0, .Deposit, 0, 0, 7, 0⟩ .Short 3 (by rfl) (by rfl)⟩

/-- Claim C9: every successful exposure-tracker or ledger operation yields a
position whose open_bids and open_asks are nonnegative; with the spec's
unsigned exposure fields and checked subtraction this holds for every
direction and amount. -/
theorem spot_position_open_orders_nonneg_invariant
    (p : SpotPosition) (d : PositionDirection) (a : Nat) :
    (∀ p', increase_spot_open_bids_and_asks p d a = .ok p' →
      0 ≤ p'.open_bids ∧ 0 ≤ p'.open_asks) ∧
    (∀ p', decrease_spot_open_bids_and_asks p d a = .ok p' →
      0 ≤ p'.open_bids ∧ 0 ≤ p'.open_asks) ∧
    (∀ (ta : Nat) (dir : SpotBalanceType) (m m' : SpotMarket)
        (p' : SpotPosition) (f : Bool),
      update_spot_position_balance ta dir m p f = (none, m', p') →
      0 ≤ p'.open_bids ∧ 0 ≤ p'.open_asks) :=
  ⟨fun _ _ => ⟨Nat.zero_le _, Nat.zero_le _⟩,
    fun _ _ => ⟨Nat.zero_le _, Nat.zero_le _⟩,
    fun _ _ _ _ _ _ _ => ⟨Nat.zero_le _, Nat.zero_le _⟩⟩

/-- Witness for C9: the invariant holds on the result of a successful
increase of Long exposure by 5 from a zeroed position. -/
theorem spot_position_open_orders_nonneg_invariant_witness :
    0 ≤ (⟨0, .Deposit, 0, 5, 0, 0⟩ : SpotPosition).open_bids ∧
    0 ≤ (⟨0, .Deposit, 0, 5, 0, 0⟩ : SpotPosition).open_asks :=
  (spot_position_open_orders_nonneg_invariant ⟨0, .Deposit, 0, 0, 0, 0⟩
    .Long 5).1 ⟨0, .Deposit, 0, 5, 0, 0⟩ (by rfl)

/-- Claim C7: a successful calculate_clampped_jit_base_asset_amount equals
min(floor(amount * amm_jit_intensity / 100), |net_base_asset_amount|);
with intensity 0 the result is 0, and with intensity 100 and an amount at
most the absolute net inventory the result is the amount unchanged. -/
theorem calculate_clampped_jit_base_asset_amount_formula
    (market : PerpMarket) (a r : Nat)
    (h : calculate_clampped_jit_base_asset_amount market a = .ok r) :
    r = min (a * market.amm.amm_jit_intensity / 100)
        market.amm.net_base_asset_amount.natAbs ∧
    (market.amm.amm_jit_intensity = 0 → r = 0) ∧
    (market.amm.amm_jit_intensity = 100 →
      a ≤ market.amm.net_base_asset_amount.natAbs → r = a) := by
  obtain ⟨hr, -, -⟩ := clamp_ok_eq h
  refine ⟨hr, ?_, ?_⟩
  · intro hz
    simp [hr, hz]
  · intro h100 hle
    rw [hr, h100, Nat.mul_div_cancel a (by norm_num)]
    exact min_eq_left hle

/-- Witness for C7 at intensity 100, net inventory 100, amount 10. -/
theorem calculate_clampped_jit_base_asset_amount_formula_witness :
    (10 : Nat) = min (10 * 100 / 100) ((100 : Int).natAbs) :=
  (calculate_clampped_jit_base_asset_amount_formula
    ⟨⟨100, 100, 0, 0, 0, 0⟩⟩ 10 10 (by rfl)).1

/-- Claim C8: validate_margin_weights with spot market index 0 succeeds only if
all four weights equal SPOT_WEIGHT_PRECISION exactly, rejecting any other
combination with a validation error; for every nonzero index it rejects
any initial liability weight at most SPOT_WEIGHT_PRECISION. -/
theorem validate_margin_weights_spec
    (iaw maw ilw mlw imf : Nat) :
    (validate_margin_weights 0 iaw maw ilw mlw imf = .ok () →
      iaw = SPOT_WEIGHT_PRECISION ∧ maw = SPOT_WEIGHT_PRECISION ∧
      ilw = SPOT_WEIGHT_PRECISION ∧ mlw = SPOT_WEIGHT_PRECISION) ∧
    (¬(iaw = SPOT_WEIGHT_PRECISION ∧ maw = SPOT_WEIGHT_PRECISION ∧
        ilw = SPOT_WEIGHT_PRECISION ∧ mlw = SPOT_WEIGHT_PRECISION) →
      validate_margin_weights 0 iaw maw ilw mlw imf = .error .validation) ∧
    (∀ idx, idx ≠ 0 → ilw ≤ SPOT_WEIGHT_PRECISION →
      validate_margin_weights idx iaw maw ilw mlw imf = .error .validation) := by
  refine ⟨?_, ?_, ?_⟩
  · intro h
    unfold validate_margin_weights validate_rule at h
    simp only [if_pos rfl] at h
    split_ifs at h <;> simp_all [ok_bind, error_bind]
  · intro hne
    unfold validate_margin_weights validate_rule
    simp only [if_pos rfl]
    split_ifs <;> simp_all [ok_bind, error_bind]
  · intro idx hidx hilw
    unfold validate_margin_weights validate_rule
    rw [if_neg hidx]
    split_ifs <;> simp_all [ok_bind, error_bind] <;> omega

/-- Witness for C8: index 0 rejects an initial asset weight of 9999, and
index 1 rejects an initial liability weight equal to the full-weight
constant. -/
theorem validate_margin_weights_spec_witness :
    validate_margin_weights 0 9999 10000 10000 10000 0 = .error .validation ∧
    validate_margin_weights 1 8000 9000 10000 9000 0 = .error .validation :=
  ⟨(validate_margin_weights_spec 9999 10000 10000 10000 0).2.1 (by decide),
    (validate_margin_weights_spec 8000 9000 10000 9000 0).2.2 1 (by decide)
      (by decide)⟩

/-- Claim C1 counterexample: depositing one token into a position whose
cumulative_deposits sits at the signed maximum makes the balance update
succeed and the cumulative_deposits increment overflow; the call returns
an arithmetic error, yet the market's deposit balance (and the position's
scaled balance) retain the mutation, so the operation is not atomic. -/
theorem update_spot_position_balance_not_atomic_counterexample :
    update_spot_position_balance 1 .Deposit ⟨0, 0⟩
        ⟨0, .Deposit, 0, 0, 0, 2 ^ 63 - 1⟩ false =
      (some .math, ⟨10 ^ 9, 0⟩, ⟨0, .Deposit, 10 ^ 9, 0, 0, 2 ^ 63 - 1⟩) ∧
    (⟨10 ^ 9, 0⟩ : SpotMarket) ≠ ⟨0, 0⟩ := by
  refine ⟨by rfl, by decide⟩

/-- Claim C1 amended: when the balance update succeeds and the subsequent
cumulative_deposits step fails, update_spot_position_balance returns the
error together with the mutated market and position (with only
cumulative_deposits unchanged): the partial mutation is retained, and
atomicity is provided only by the host's outer transaction. -/
theorem update_spot_position_balance_retains_balance_mutation_on_cumdep_failure
    (token_amount : Nat) (dir : SpotBalanceType) (m m' : SpotMarket)
    (p p' : SpotPosition) (f : Bool) (e : ErrKind)
    (h1 : update_spot_balances token_amount dir m p f = .ok (m', p'))
    (h2 : cumulative_deposits_delta dir token_amount p'.cumulative_deposits =
      .error e) :
    update_spot_position_balance token_amount dir m p f = (some e, m', p') := by
  simp [update_spot_position_balance, h1, h2]

/-- Witness for the amended C1 at the concrete overflowing input. -/
theorem update_spot_position_balance_retains_balance_mutation_witness :
    update_spot_position_balance 1 .Deposit ⟨0, 0⟩
        ⟨0, .Deposit, 0, 0, 0, 2 ^ 63 - 1⟩ false =
      (some .math, ⟨10 ^ 9, 0⟩, ⟨0, .Deposit, 10 ^ 9, 0, 0, 2 ^ 63 - 1⟩) :=
  update_spot_position_balance_retains_balance_mutation_on_cumdep_failure
    1 .Deposit ⟨0, 0⟩ ⟨10 ^ 9, 0⟩ ⟨0, .Deposit, 0, 0, 0, 2 ^ 63 - 1⟩
    ⟨0, .Deposit, 10 ^ 9, 0, 0, 2 ^ 63 - 1⟩ false .math (by rfl) (by rfl)

lemma ok_inj {α : Type} {a b : α} (h : (Except.ok a : CResult α) = .ok b) :
    a = b := by
  injection h

lemma checked_div_of_ne {a b : Nat} (hb : b ≠ 0) :
    checked_div a b = .ok (a / b) := by
  simp [checked_div, hb]

/-- The sizing tail is monotone in the wash-trade-adjusted cap for a fixed
market and maker amount. -/
lemma jit_amount_after_cap_mono (m : PerpMarket) (maker : Nat)
    {mj1 mj2 r1 r2 : Nat} (hle : mj1 ≤ mj2)
    (h1 : jit_amount_after_cap m maker mj1 = .ok r1)
    (h2 : jit_amount_after_cap m maker mj2 = .ok r2) : r1 ≤ r2 := by
  by_cases hz : mj1 = 0
  · subst hz
    unfold jit_amount_after_cap at h1
    rw [if_pos rfl] at h1
    have := ok_inj h1
    omega
  · have hz2 : mj2 ≠ 0 := fun h => hz (Nat.le_zero.mp (h ▸ hle))
    unfold jit_amount_after_cap at h1 h2
    rw [if_neg hz] at h1
    rw [if_neg hz2] at h2
    rcases bind_ok_iff.mp h1 with ⟨ratio, hra, h1⟩
    rcases bind_ok_iff.mp h2 with ⟨ratio2, hra2, h2⟩
    rw [hra] at hra2
    obtain rfl := ok_inj hra2
    rcases bind_ok_iff.mp h1 with ⟨b1, hb1, h1⟩
    rcases checked_mul_u128_ok.mp hb1 with ⟨-, rfl⟩
    rcases bind_ok_iff.mp h2 with ⟨b2, hb2, h2⟩
    rcases checked_mul_u128_ok.mp hb2 with ⟨-, rfl⟩
    rcases bind_ok_iff.mp h1 with ⟨jit1, hj1, h1⟩
    rcases bind_ok_iff.mp h2 with ⟨jit2, hj2, h2⟩
    rw [hj1] at hj2
    obtain rfl := ok_inj hj2
    by_cases hj0 : jit1 = 0
    · rw [if_pos hj0] at h1
      have := ok_inj h1
      omega
    · rw [if_neg hj0] at h1 h2
      rcases bind_ok_iff.mp h1 with ⟨c1, hc1, hs1⟩
      rcases bind_ok_iff.mp h2 with ⟨c2, hc2, hs2⟩
      rw [hc1] at hc2
      obtain rfl := ok_inj hc2
      exact standardize_mono (min_le_min le_rfl hle) hs1 hs2

/-- The wash-trade cap under a flagged configuration is a quarter of half
the maker amount. -/
lemma jit_max_amount_flagged {maker auction : Nat} {p : Int}
    {dir : PositionDirection} {mj : Nat}
    (hw : wash_flagged dir auction p.toNat)
    (h : jit_max_amount maker auction (some p) dir = .ok mj) :
    mj = maker / 2 / 4 := by
  unfold jit_max_amount at h
  rw [checked_div_of_ne (by norm_num), ok_bind] at h
  rcases bind_ok_iff.mp h with ⟨op, hop, hif⟩
  rcases cast_to_u128_ok.mp hop with ⟨-, rfl⟩
  rcases hw with ⟨hd, hlt⟩ | ⟨hd, hgt⟩
  · rw [if_pos ⟨hd, hlt⟩] at hif
    rcases checked_div_ok.mp hif with ⟨-, rfl⟩
    rfl
  · subst hd
    rw [if_neg (by simp), if_pos ⟨rfl, hgt⟩] at hif
    rcases checked_div_ok.mp hif with ⟨-, rfl⟩
    rfl

/-- The wash-trade cap under a neutral configuration is half the maker
amount, untouched. -/
lemma jit_max_amount_neutral {maker auction : Nat} {p : Int}
    {dir : PositionDirection} {mj : Nat}
    (hn : ¬ wash_flagged dir auction p.toNat)
    (h : jit_max_amount maker auction (some p) dir = .ok mj) :
    mj = maker / 2 := by
  unfold jit_max_amount at h
  rw [checked_div_of_ne (by norm_num), ok_bind] at h
  rcases bind_ok_iff.mp h with ⟨op, hop, hif⟩
  rcases cast_to_u128_ok.mp hop with ⟨-, rfl⟩
  rw [if_neg (fun hc => hn (Or.inl hc)), if_neg (fun hc => hn (Or.inr hc))]
    at hif
  exact (ok_inj hif).symm

/-- Claim C6 amended: with the same market, maker amount, and oracle price, a
successful JIT amount under a wash-trade-flagged configuration is at most
(not necessarily strictly less than) the amount under a neutral
configuration. -/
theorem jit_wash_flagged_le_neutral
    (market : PerpMarket) (maker : Nat) (p : Int)
    (auction_w auction_n : Nat) (dir_w dir_n : PositionDirection)
    (r_w r_n : Nat)
    (hw : wash_flagged dir_w auction_w p.toNat)
    (hn : ¬ wash_flagged dir_n auction_n p.toNat)
    (h1 : calculate_jit_base_asset_amount market maker auction_w (some p)
      dir_w = .ok r_w)
    (h2 : calculate_jit_base_asset_amount market maker auction_n (some p)
      dir_n = .ok r_n) :
    r_w ≤ r_n := by
  unfold calculate_jit_base_asset_amount at h1 h2
  rcases bind_ok_iff.mp h1 with ⟨mjw, hmjw, htw⟩
  rcases bind_ok_iff.mp h2 with ⟨mjn, hmjn, htn⟩
  obtain rfl := jit_max_amount_flagged hw hmjw
  obtain rfl := jit_max_amount_neutral hn hmjn
  exact jit_amount_after_cap_mono market maker (Nat.div_le_self _ 4) htw htn

/-- Claim C6 counterexample: with net inventory 5 the intensity/inventory clamp
binds before the wash-trade cap, so the flagged and neutral configurations
both produce 5; the flagged result is not strictly less. -/
theorem jit_wash_strictly_less_counterexample :
    wash_flagged .Long 200 ((300 : Int)).toNat ∧
    ¬ wash_flagged .Long 400 ((300 : Int)).toNat ∧
    calculate_jit_base_asset_amount ⟨⟨5, 100, 75, 50, 100, 1⟩⟩ 100 200
      (some 300) .Long = .ok 5 ∧
    calculate_jit_base_asset_amount ⟨⟨5, 100, 75, 50, 100, 1⟩⟩ 100 400
      (some 300) .Long = .ok 5 ∧
    ¬ ((5 : Nat) < 5) :=
  ⟨by decide, by decide, by rfl, by rfl, by decide⟩

/-- Witness for the amended C6: on a balanced market with ample inventory
the flagged cap binds, 12 against the neutral 25, and 12 is at most 25. -/
theorem jit_wash_flagged_le_neutral_witness :
    calculate_jit_base_asset_amount ⟨⟨100, 100, 75, 50, 100, 1⟩⟩ 100 200
      (some 300) .Long = .ok 12 ∧
    calculate_jit_base_asset_amount ⟨⟨100, 100, 75, 50, 100, 1⟩⟩ 100 400
      (some 300) .Long = .ok 25 ∧
    (12 : Nat) ≤ 25 :=
  ⟨by rfl, by rfl,
    jit_wash_flagged_le_neutral ⟨⟨100, 100, 75, 50, 100, 1⟩⟩ 100 300 200 400
      .Long .Long 12 25 (by decide) (by decide) (by rfl) (by rfl)⟩

/-- Claim C5 amended: for a fixed maker amount, auction price, oracle price, and
taker direction, and two markets agreeing on intensity, net inventory, and
additionally order step size, a market classified imbalanced (ratio at
least 3 * PRECISION) never yields a smaller successful JIT amount than one
classified balanced. -/
theorem jit_imbalance_monotone_with_equal_step_size
    (m1 m2 : PerpMarket) (maker auction : Nat) (oracle : Option Int)
    (dir : PositionDirection) (r1 r2 ratio1 ratio2 : Nat)
    (hint : m1.amm.amm_jit_intensity = m2.amm.amm_jit_intensity)
    (hnet : m1.amm.net_base_asset_amount = m2.amm.net_base_asset_amount)
    (hstep : m1.amm.order_step_size = m2.amm.order_step_size)
    (hra1 : amm_imbalance_ratio m1.amm = .ok ratio1)
    (himb : 3 * AMM_RESERVE_PRECISION ≤ ratio1)
    (hra2 : amm_imbalance_ratio m2.amm = .ok ratio2)
    (hbal : ratio2 < 3 * AMM_RESERVE_PRECISION)
    (h1 : calculate_jit_base_asset_amount m1 maker auction oracle dir = .ok r1)
    (h2 : calculate_jit_base_asset_amount m2 maker auction oracle dir = .ok r2) :
    r2 ≤ r1 := by
  unfold calculate_jit_base_asset_amount at h1 h2
  rcases bind_ok_iff.mp h1 with ⟨mj, hmj1, h1⟩
  rcases bind_ok_iff.mp h2 with ⟨mj2, hmj2, h2⟩
  rw [hmj1] at hmj2
  obtain rfl := ok_inj hmj2
  by_cases hz : mj = 0
  · subst hz
    unfold jit_amount_after_cap at h1 h2
    rw [if_pos rfl] at h1 h2
    have hr1 := ok_inj h1
    have hr2 := ok_inj h2
    omega
  · unfold jit_amount_after_cap at h1 h2
    rw [if_neg hz] at h1 h2
    rcases bind_ok_iff.mp h1 with ⟨ra, hraa, h1⟩
    rw [hra1] at hraa
    obtain rfl := ok_inj hraa
    rcases bind_ok_iff.mp h2 with ⟨rb, hrbb, h2⟩
    rw [hra2] at hrbb
    obtain rfl := ok_inj hrbb
    rcases bind_ok_iff.mp h1 with ⟨b1, hb1, h1⟩
    rcases checked_mul_u128_ok.mp hb1 with ⟨-, rfl⟩
    rcases bind_ok_iff.mp h2 with ⟨b2, hb2, h2⟩
    rcases checked_mul_u128_ok.mp hb2 with ⟨-, rfl⟩
    rcases bind_ok_iff.mp h1 with ⟨jit1, hj1, h1⟩
    rw [if_pos himb] at hj1
    obtain rfl := ok_inj hj1
    rcases bind_ok_iff.mp h2 with ⟨jit2, hj2, h2⟩
    rw [if_neg (not_le.mpr hbal)] at hj2
    rcases checked_div_ok.mp hj2 with ⟨-, rfl⟩
    by_cases h40 : maker / 4 = 0
    · rw [if_pos h40] at h2
      have := ok_inj h2
      omega
    · have hm0 : maker ≠ 0 := fun h => h40 (by simp [h])
      rw [if_neg hm0] at h1
      rw [if_neg h40] at h2
      rcases bind_ok_iff.mp h1 with ⟨c1, hc1, hs1⟩
      rcases bind_ok_iff.mp h2 with ⟨c2, hc2, hs2⟩
      obtain ⟨he1, -, -⟩ := clamp_ok_eq hc1
      obtain ⟨he2, -, -⟩ := clamp_ok_eq hc2
      have hcle : c2 ≤ c1 := by
        rw [he1, he2, ← hint, ← hnet]
        exact min_le_min
          (Nat.div_le_div_right
            (Nat.mul_le_mul_right _ (Nat.div_le_self maker 4))) le_rfl
      rw [← hstep] at hs2
      exact standardize_mono (min_le_min hcle le_rfl) hs2 hs1

/-- Claim C5 counterexample: with maker amount, auction price, oracle price,
taker direction, intensity, and net inventory all fixed, an imbalanced
market with order step size 51 yields 0 while a balanced one with step
size 1 yields 25 — the imbalanced market yields strictly less, because the
claim leaves the step size unconstrained. -/
theorem jit_imbalance_monotone_counterexample :
    amm_imbalance_ratio (⟨100, 100, 88, 50, 100, 51⟩ : AMM) =
      .ok 31666666666666 ∧
    3 * AMM_RESERVE_PRECISION ≤ 31666666666666 ∧
    amm_imbalance_ratio (⟨100, 100, 75, 50, 100, 1⟩ : AMM) =
      .ok 10000000000000 ∧
    10000000000000 < 3 * AMM_RESERVE_PRECISION ∧
    calculate_jit_base_asset_amount ⟨⟨100, 100, 88, 50, 100, 51⟩⟩ 100 200
      (some 300) .Short = .ok 0 ∧
    calculate_jit_base_asset_amount ⟨⟨100, 100, 75, 50, 100, 1⟩⟩ 100 200
      (some 300) .Short = .ok 25 ∧
    (0 : Nat) < 25 :=
  ⟨by rfl, by decide, by rfl, by decide, by rfl, by rfl, by decide⟩

/-- Witness for the amended C5: with equal step sizes the imbalanced market
yields 50 against the balanced 25, and 25 is at most 50. -/
theorem jit_imbalance_monotone_with_equal_step_size_witness :
    calculate_jit_base_asset_amount ⟨⟨100, 100, 88, 50, 100, 1⟩⟩ 100 200
      (some 300) .Short = .ok 50 ∧
    calculate_jit_base_asset_amount ⟨⟨100, 100, 75, 50, 100, 1⟩⟩ 100 200
      (some 300) .Short = .ok 25 ∧
    (25 : Nat) ≤ 50 :=
  ⟨by rfl, by rfl,
    jit_imbalance_monotone_with_equal_step_size
      ⟨⟨100, 100, 88, 50, 100, 1⟩⟩ ⟨⟨100, 100, 75, 50, 100, 1⟩⟩ 100 200
      (some 300) .Short 50 25 31666666666666 10000000000000
      (by rfl) (by rfl) (by rfl) (by rfl) (by decide) (by rfl) (by decide)
      (by rfl) (by rfl)⟩

end ClearingHouse
